import Mathlib

/-!
# Verification of the oxchief-client mission paging engine and safety monitors

Shallow embedding of the mission-paging and monitoring logic of
`src/waypoint_wizard.py`, `src/robot_state.py`, `src/util.py`,
`src/flight_controller.py` and `src/eternal_process.py`.

Python lists become `List`, Python ints become `ℤ`, Python floats become `ℚ`
(`round(x, n)` becomes decimal round-half-to-even on `ℚ`), Python slices get
their exact clipping semantics (`pySlice`), the module-level mutable state of
`robot_state.py` becomes an explicit `RobotState` record threaded through the
operations, and the externally visible side effects (persisting to the local
database, uploading the page to the flight controller, hold/start commands,
`waypoint_set_current_send`) become an explicit event trace.  The keyed
last-value telemetry cache `robot_state.autopilot_data` (a `defaultdict`
returning falsy `False` for missing keys) becomes a record of `Option` fields.
-/

set_option maxRecDepth 20000

namespace OxChief

/-- Round-half-to-even on rationals (the tie-breaking rule of Python's
`round`). -/
def roundHalfEven (q : ℚ) : ℤ :=
  let f : ℤ := ⌊q⌋
  let r : ℚ := q - f
  if r < 1/2 then f
  else if r > 1/2 then f + 1
  else if f % 2 = 0 then f else f + 1

/-- Python `round(q, n)`: round to `n` decimal digits, ties to even. -/
def pyRound (q : ℚ) (n : ℕ) : ℚ :=
  (roundHalfEven (q * 10 ^ n) : ℚ) / 10 ^ n

/-- Effective index of a Python slice endpoint `i` for a list of length `n`:
negative values count from the end, then the result is clamped to `[0, n]`. -/
def pyIdx (n : ℕ) (i : ℤ) : ℕ :=
  if i < 0 then ((n : ℤ) + i).toNat else min i.toNat n

/-- Python `l[a:b]` (step 1). -/
def pySlice {α : Type} (l : List α) (a b : ℤ) : List α :=
  (l.take (pyIdx l.length b)).drop (pyIdx l.length a)

/-- `match`-free model of `list.insert(0, list[0])` (and of the "append the
first element twice" loop of `load_mission_data_from_mission_waypoints`):
duplicate the head of the list.  The source would raise `IndexError` on an
empty list; the operations below only apply it to nonempty pages. -/
def dupHead {α : Type} : List α → List α
  | [] => []
  | x :: xs => x :: x :: xs

/-- A mission waypoint: `{'lat': .., 'lng': ..}` (waypoint_wizard.py). -/
structure Waypoint where
  lat : ℚ
  lng : ℚ
  deriving DecidableEq, Repr

/-- `{'lat': round(waypoint['lat'], 8), 'lng': round(waypoint['lng'], 8)}`. -/
def roundWaypoint (w : Waypoint) : Waypoint :=
  ⟨pyRound w.lat 8, pyRound w.lng 8⟩

/-- `Constants.WAYPOINT_LOAD_COUNT_INITIAL` (constants.py line 70). -/
def WAYPOINT_LOAD_COUNT_INITIAL : ℤ := 100

/-- `Constants.WAYPOINT_LOAD_COUNT_SUBSEQUENT` (constants.py line 74). -/
def WAYPOINT_LOAD_COUNT_SUBSEQUENT : ℤ := 250

/-- `Constants.GYRATING_CHECK_MAX_ALLOWABLE_WOBBLE_IN_DEGREES`. -/
def GYRATING_CHECK_MAX_ALLOWABLE_WOBBLE_IN_DEGREES : ℚ := 15

/-- `Constants.GYRATING_CHECK_MIN_TIME_BETWEEN_RESETS_IN_SECONDS`. -/
def GYRATING_CHECK_MIN_TIME_BETWEEN_RESETS_IN_SECONDS : ℚ := 45

/-- The paging-relevant module state of `robot_state.py`. -/
structure RobotState where
  waypoints_in_mission : List Waypoint
  waypoints_in_autopilot : List Waypoint
  last_autopilot_loaded_waypoint_number_start : ℤ
  last_autopilot_loaded_waypoint_number_end : ℤ
  deriving DecidableEq, Repr

/-- The `robot_state.py` module-level initial values. -/
def initState : RobotState :=
  { waypoints_in_mission := []
    waypoints_in_autopilot := []
    last_autopilot_loaded_waypoint_number_start := -1
    last_autopilot_loaded_waypoint_number_end := -1 }

/-- `robot_state.end_waypoint_number_of_waypoints_in_autopilot()`:
`len(waypoints_in_autopilot) - 1`. -/
def end_waypoint_number_of_waypoints_in_autopilot (s : RobotState) : ℤ :=
  (s.waypoints_in_autopilot.length : ℤ) - 1

/-- `robot_state.end_waypoint_number_of_complete_mission()`:
`len(waypoints_in_mission) - 1`. -/
def end_waypoint_number_of_complete_mission (s : RobotState) : ℤ :=
  (s.waypoints_in_mission.length : ℤ) - 1

/-- `waypoint_wizard.more_waypoints_to_load()`. -/
def more_waypoints_to_load (s : RobotState) : Bool :=
  decide (s.last_autopilot_loaded_waypoint_number_end
            < end_waypoint_number_of_complete_mission s)

/-- `waypoint_wizard.prior_waypoints_to_load()`. -/
def prior_waypoints_to_load (s : RobotState) : Bool :=
  decide (s.last_autopilot_loaded_waypoint_number_end
            > WAYPOINT_LOAD_COUNT_INITIAL)

/-- Externally visible side effects of the paging/navigation operations. -/
inductive Event where
  /-- `flight_controller.hold()` -/
  | hold : Event
  /-- `robot_state.local_storage.save_mission_info_to_db()` -/
  | persist : Event
  /-- `load_waypoints_into_autopilot()` (mission upload) -/
  | upload : Event
  /-- `goto_wp(n)` / `mutil.waypoint_set_current_send(n)` -/
  | gotoWp : ℤ → Event
  /-- `flight_controller.start_robot()` -/
  | startRobot : Event
  deriving DecidableEq, Repr

/-- Whether an event is a `GotoWaypoint` command. -/
def Event.isGoto : Event → Bool
  | .gotoWp _ => true
  | _ => false

/-- `waypoint_wizard.load_mission_data_from_mission_waypoints(waypoints)`
(lines 329-361): clear the mission, re-append every waypoint rounded to 8
decimal places with the first one duplicated, slice the first
`WAYPOINT_LOAD_COUNT_INITIAL+1` items into the autopilot page, record the page
bounds `1..WAYPOINT_LOAD_COUNT_INITIAL`, persist, upload.  The prior state is
cleared and never read. -/
def load_mission_data_from_mission_waypoints (waypoints : List Waypoint)
    (_s : RobotState) : RobotState × List Event :=
  let mission := dupHead (waypoints.map roundWaypoint)
  ({ waypoints_in_mission := mission
     waypoints_in_autopilot := pySlice mission 0 (WAYPOINT_LOAD_COUNT_INITIAL + 1)
     last_autopilot_loaded_waypoint_number_start := 1
     last_autopilot_loaded_waypoint_number_end := WAYPOINT_LOAD_COUNT_INITIAL },
   [Event.persist, Event.upload])

/-- `waypoint_wizard.load_next_round_of_waypoints()` (lines 297-327). -/
def load_next_round_of_waypoints (s : RobotState) : RobotState × List Event :=
  if more_waypoints_to_load s then
    let next_waypoint_start := s.last_autopilot_loaded_waypoint_number_end
    let next_waypoint_end₀ := next_waypoint_start + WAYPOINT_LOAD_COUNT_SUBSEQUENT
    let missionLen : ℤ := s.waypoints_in_mission.length
    let next_waypoint_end :=
      if next_waypoint_end₀ > missionLen then missionLen else next_waypoint_end₀
    let page := dupHead
      (pySlice s.waypoints_in_mission next_waypoint_start (next_waypoint_end + 1))
    ({ s with
        waypoints_in_autopilot := page
        last_autopilot_loaded_waypoint_number_start := next_waypoint_start
        last_autopilot_loaded_waypoint_number_end := next_waypoint_end },
     [Event.persist, Event.upload])
  else (s, [])

/-- `waypoint_wizard.load_prior_round_of_waypoints()` (lines 263-295).
The third component is the function's `ret_val`.  Note the source does not
re-insert a duplicate home element for prior pages (the `insert` is commented
out at line 290). -/
def load_prior_round_of_waypoints (s : RobotState) :
    RobotState × List Event × ℤ :=
  if prior_waypoints_to_load s then
    if s.last_autopilot_loaded_waypoint_number_end
        ≤ WAYPOINT_LOAD_COUNT_INITIAL + WAYPOINT_LOAD_COUNT_SUBSEQUENT then
      let waypoint_start_load : ℤ := 0
      let waypoint_end_load := WAYPOINT_LOAD_COUNT_INITIAL
      ({ s with
          waypoints_in_autopilot :=
            pySlice s.waypoints_in_mission waypoint_start_load (waypoint_end_load + 1)
          last_autopilot_loaded_waypoint_number_start := waypoint_start_load
          last_autopilot_loaded_waypoint_number_end := waypoint_end_load },
       ([Event.persist, Event.upload], WAYPOINT_LOAD_COUNT_INITIAL))
    else
      let waypoint_start_load := s.last_autopilot_loaded_waypoint_number_start
        - WAYPOINT_LOAD_COUNT_SUBSEQUENT - 1
      let waypoint_end_load := s.last_autopilot_loaded_waypoint_number_start
      ({ s with
          waypoints_in_autopilot :=
            pySlice s.waypoints_in_mission waypoint_start_load (waypoint_end_load + 1)
          last_autopilot_loaded_waypoint_number_start := waypoint_start_load
          last_autopilot_loaded_waypoint_number_end := waypoint_end_load },
       ([Event.persist, Event.upload], WAYPOINT_LOAD_COUNT_SUBSEQUENT))
  else (s, ([], -1))

/-- Repeatedly apply `load_next_round_of_waypoints` while
`more_waypoints_to_load` holds, collecting the states after each load.
`fuel` bounds the number of iterations; every theorem using it supplies
enough fuel for the loop to run to completion. -/
def nextPages : ℕ → RobotState → List RobotState
  | 0, _ => []
  | fuel + 1, s =>
    if more_waypoints_to_load s then
      let s' := (load_next_round_of_waypoints s).1
      s' :: nextPages fuel s'
    else []

/-- The contiguous segment of mission indices `a..b` (inclusive), for
describing loaded pages. -/
def missionSeg {α : Type} (l : List α) (a b : ℤ) : List α :=
  (l.drop a.toNat).take (b - a + 1).toNat

/-- The step relation tying one loaded page to the page produced by the next
successful `LoadNextPage`: the new start is the old end, the new end is the
old end plus `SubsequentPageSize` clipped to the mission length `L`, the step
only happens while the old end is strictly inside the mission, the mission is
unchanged, and the uploaded page holds exactly the mission segment from the
new start through the new end (clipped to the last valid index), with its
head duplicated. -/
def pageStepR (L : ℤ) (mission : List Waypoint) (p q : RobotState) : Prop :=
  q.last_autopilot_loaded_waypoint_number_start
      = p.last_autopilot_loaded_waypoint_number_end ∧
  q.last_autopilot_loaded_waypoint_number_end
      = min (p.last_autopilot_loaded_waypoint_number_end
              + WAYPOINT_LOAD_COUNT_SUBSEQUENT) L ∧
  p.last_autopilot_loaded_waypoint_number_end < L - 1 ∧
  q.waypoints_in_mission = mission ∧
  q.waypoints_in_autopilot
      = dupHead (missionSeg mission
          q.last_autopilot_loaded_waypoint_number_start
          (min q.last_autopilot_loaded_waypoint_number_end (L - 1)))

/-- Two consecutive page index-intervals overlap in exactly one mission
index: the incoming page starts where the outgoing page ends, and that
shared index is the only index in both intervals. -/
def pageOverlapR (p q : ℤ × ℤ) : Prop :=
  q.1 = p.2 ∧ ∀ i : ℤ, (p.1 ≤ i ∧ i ≤ p.2 ∧ q.1 ≤ i ∧ i ≤ q.2) ↔ i = p.2

/-- `flight_controller.end_of_mission_cleanup()` (lines 322-335): hold, then
feed the current `waypoints_in_mission` back into
`load_mission_data_from_mission_waypoints`, then `waypoint_set_current_send(1)`. -/
def end_of_mission_cleanup (s : RobotState) : RobotState × List Event :=
  let wp_in_mission := s.waypoints_in_mission
  let res := load_mission_data_from_mission_waypoints wp_in_mission s
  (res.1, Event.hold :: res.2 ++ [Event.gotoWp 1])

/-- The state transformer of one `end_of_mission_cleanup` call. -/
def applyCleanup (s : RobotState) : RobotState := (end_of_mission_cleanup s).1

/-- State with page bounds `[350, 600]` inside a 600-waypoint mission (the
state produced by `LoadMission` followed by two `LoadNextPage`s). -/
def c3State : RobotState :=
  { waypoints_in_mission := List.replicate 601 ⟨0, 0⟩
    waypoints_in_autopilot := List.replicate 251 ⟨0, 0⟩
    last_autopilot_loaded_waypoint_number_start := 350
    last_autopilot_loaded_waypoint_number_end := 600 }

/-- Python `l[i]` for an int index `i`: negative indices count from the end,
anything still out of range raises `IndexError` (modelled as `none`). -/
def pyGet {α : Type} (l : List α) (i : ℤ) : Option α :=
  if 0 ≤ i then l[i.toNat]?
  else if 0 ≤ (l.length : ℤ) + i then l[((l.length : ℤ) + i).toNat]?
  else none

/-- `GLOBAL_POSITION_INT` message fields used by the distance helpers:
raw coordinates scaled by `10^7`. -/
structure GlobalPositionInt where
  lat : ℤ
  lon : ℤ
  deriving DecidableEq, Repr

/-- The slice of the `robot_state.autopilot_data` last-value telemetry cache
consulted by the distance helpers.  The cache is a `defaultdict` returning the
falsy `False` for missing keys; a missing entry is `none`.
`mission_current` holds the `seq` field of the latest `MISSION_CURRENT`
message. -/
structure AutopilotData where
  global_position_int : Option GlobalPositionInt
  mission_current : Option ℤ
  deriving DecidableEq, Repr

/-- `waypoint_wizard.get_prev_wp_dist_in_meters()` (lines 526-551).
The haversine library call is abstracted as the parameter `hav` (a function
from two (lat, lng) pairs to a distance); the source then applies
`abs(round(dist, 2))`.  `some r` is a returned value; `none` is the
`IndexError` the source raises when `seq - 1` is outside the loaded page. -/
def get_prev_wp_dist_in_meters (hav : ℚ × ℚ → ℚ × ℚ → ℚ)
    (s : RobotState) (d : AutopilotData) : Option ℚ :=
  match d.global_position_int, d.mission_current with
  | some utm, some seq =>
    if s.waypoints_in_autopilot.length > 0 then
      let loc1 : ℚ × ℚ := ((utm.lat : ℚ) / 10 ^ 7, (utm.lon : ℚ) / 10 ^ 7)
      let wp_number := seq - 1
      if wp_number < 0 then some 0
      else
        match pyGet s.waypoints_in_autopilot wp_number with
        | some wp_loc => some |pyRound (hav loc1 (wp_loc.lat, wp_loc.lng)) 2|
        | none => none
    else some (-1)
  | _, _ => some (-1)

/-- `waypoint_wizard.get_wp_dist_in_meters()` (lines 553-579); the progress
index 0 (the home point) is remapped to 1. -/
def get_wp_dist_in_meters (hav : ℚ × ℚ → ℚ × ℚ → ℚ)
    (s : RobotState) (d : AutopilotData) : Option ℚ :=
  match d.global_position_int, d.mission_current with
  | some utm, some seq =>
    if s.waypoints_in_autopilot.length > 0 then
      let loc1 : ℚ × ℚ := ((utm.lat : ℚ) / 10 ^ 7, (utm.lon : ℚ) / 10 ^ 7)
      let wp_number := if seq = 0 then 1 else seq
      match pyGet s.waypoints_in_autopilot wp_number with
      | some wp_loc => some |pyRound (hav loc1 (wp_loc.lat, wp_loc.lng)) 2|
      | none => none
    else some (-1)
  | _, _ => some (-1)

/-- `waypoint_wizard.goto_wp(num)`: `mutil.waypoint_set_current_send(num)`. -/
def goto_wp (num : ℤ) : List Event := [Event.gotoWp num]

/-- `waypoint_wizard.goto_next_wp()` (lines 373-413).  `wasAuto` is the value
of `flight_controller.get_flight_mode_as_string() == "auto"`; hold/start are
only issued around the page load when it is true. -/
def goto_next_wp (wasAuto : Bool) (s : RobotState) (d : AutopilotData) :
    RobotState × List Event :=
  match d.mission_current with
  | none => (s, [])
  | some current_waypoint =>
    let next_waypoint := current_waypoint + 1
    if next_waypoint > end_waypoint_number_of_waypoints_in_autopilot s
        ∧ more_waypoints_to_load s = true then
      let res := load_next_round_of_waypoints s
      (res.1,
        (if wasAuto then [Event.hold] else []) ++ res.2
          ++ goto_wp 2
          ++ (if wasAuto then [Event.startRobot] else []))
    else (s, goto_wp next_waypoint)

/-- `waypoint_wizard.goto_wp_plus_50()` (lines 448-489).  When the target is
beyond the loaded page but no further pages exist, the source does nothing
(the commented-out TODO branch). -/
def goto_wp_plus_50 (wasAuto : Bool) (s : RobotState) (d : AutopilotData) :
    RobotState × List Event :=
  match d.mission_current with
  | none => (s, [])
  | some current_waypoint =>
    let next_waypoint := current_waypoint + 50
    if next_waypoint > end_waypoint_number_of_waypoints_in_autopilot s then
      if more_waypoints_to_load s then
        let waypoints_left_before_end_of_currently_loaded_mission :=
          end_waypoint_number_of_waypoints_in_autopilot s - current_waypoint
        let fifty_more_actual_waypoints :=
          50 - waypoints_left_before_end_of_currently_loaded_mission + 1
        let res := load_next_round_of_waypoints s
        (res.1,
          (if wasAuto then [Event.hold] else []) ++ res.2
            ++ goto_wp fifty_more_actual_waypoints
            ++ (if wasAuto then [Event.startRobot] else []))
      else (s, [])
    else (s, goto_wp next_waypoint)

/-- A state with a fully loaded first page `[1, 100]` (101-point page) of a
151-point mission, as after `LoadMission` on 150 waypoints. -/
def c5State : RobotState :=
  { waypoints_in_mission := List.replicate 151 ⟨0, 0⟩
    waypoints_in_autopilot := List.replicate 101 ⟨0, 0⟩
    last_autopilot_loaded_waypoint_number_start := 1
    last_autopilot_loaded_waypoint_number_end := 100 }

/-- `waypoint_wizard.build_waypoint_file_first_line()` (lines 64-71). -/
def build_waypoint_file_first_line : String := "QGC WPL 110"

/-- `waypoint_wizard.build_waypoint_file_lat_lng_line(index, lat, lng)`
(lines 73-87).  Python's `str(..)` rendering of the float coordinates is
abstracted as the parameter `render`; the zero-based `index` is rendered with
`toString`. -/
def build_waypoint_file_lat_lng_line (render : ℚ → String) (index : ℕ)
    (lat lng : ℚ) : String :=
  toString index ++ "\t0\t3\t16\t0\t0\t0\t0\t" ++ render lat ++ "\t"
    ++ render lng ++ "\t100.000000\t1"

/-- The accumulation loop of
`waypoint_wizard.build_waypoints_string_from_mission_waypoints` (lines
108-117): one line per waypoint, counter `x` incremented from its starting
value, each coordinate rounded to 8 decimal places before rendering. -/
def build_waypoints_loop (render : ℚ → String) : ℕ → List Waypoint → String
  | _, [] => ""
  | x, w :: rest =>
    build_waypoint_file_lat_lng_line render x (pyRound w.lat 8)
        (pyRound w.lng 8) ++ "\n"
      ++ build_waypoints_loop render (x + 1) rest

/-- `waypoint_wizard.build_waypoints_string_from_mission_waypoints(waypoints)`
(lines 89-117). -/
def build_waypoints_string_from_mission_waypoints (render : ℚ → String)
    (waypoints : List Waypoint) : String :=
  build_waypoint_file_first_line ++ "\n" ++ build_waypoints_loop render 0 waypoints

/-- The line format as the spec words it: twelve tab-separated fields
`index 0 3 16 0 0 0 0 lat lng 100.000000 1`, with the coordinates rounded to
8 decimal places. -/
def specWaypointLine (render : ℚ → String) (i : ℕ) (w : Waypoint) : String :=
  toString i ++ "\t" ++ "0" ++ "\t" ++ "3" ++ "\t" ++ "16" ++ "\t" ++ "0"
    ++ "\t" ++ "0" ++ "\t" ++ "0" ++ "\t" ++ "0" ++ "\t"
    ++ render (pyRound w.lat 8) ++ "\t" ++ render (pyRound w.lng 8)
    ++ "\t" ++ "100.000000" ++ "\t" ++ "1"

/-- Python `a % b` on floats for positive modulus: `a - b * floor(a / b)`. -/
def pymod (a b : ℚ) : ℚ := a - b * ⌊a / b⌋

/-- `util.heading_difference(heading1, heading2)` (util.py lines 37-59). -/
def heading_difference (heading1 heading2 : ℚ) : ℚ :=
  let h1 := pymod heading1 360
  let h2 := pymod heading2 360
  let angle_difference := |h1 - h2|
  if angle_difference > 180 then 360 - angle_difference else angle_difference

/-- The nested index loops of `util.max_heading_difference` (lines 61-80):
the outer loop takes each element in turn, the inner loop folds the maximum
pairwise difference against every later element into the accumulator. -/
def max_heading_difference_go : List ℚ → ℚ → ℚ
  | [], max_diff => max_diff
  | h :: t, max_diff =>
    max_heading_difference_go t
      (t.foldl (fun acc x => max acc (heading_difference h x)) max_diff)

/-- `util.max_heading_difference(headings)`: maximum pairwise heading delta,
starting from 0. -/
def max_heading_difference (headings : List ℚ) : ℚ :=
  max_heading_difference_go headings 0

/-- The per-sample decision of
`eternal_process.autopilot_check_gyrating_and_stop_hold_start_if_so`
(lines 361-381) once at least two headings are recorded: `wobble` above the
threshold triggers a stop/start cycle only when more than the cooldown has
elapsed since `robot_state.time_last_stop_start`, otherwise it only logs;
wobble at or below the threshold does nothing. -/
inductive GyrationAction where
  | stopStartCycle : GyrationAction
  | logOnly : GyrationAction
  | noAction : GyrationAction
  deriving DecidableEq, Repr

/-- The gyration monitor's decision, as a function of the computed wobble,
the current time and the recorded time of the last stop/start. -/
def autopilot_gyration_decision (wobble now time_last_stop_start : ℚ) :
    GyrationAction :=
  if wobble > GYRATING_CHECK_MAX_ALLOWABLE_WOBBLE_IN_DEGREES then
    if now - time_last_stop_start
        > GYRATING_CHECK_MIN_TIME_BETWEEN_RESETS_IN_SECONDS then
      GyrationAction.stopStartCycle
    else GyrationAction.logOnly
  else GyrationAction.noAction

theorem roundHalfEven_intCast (z : ℤ) : roundHalfEven (z : ℚ) = z := by
  simp [roundHalfEven]

theorem pyRound_intCast (z : ℤ) (n : ℕ) : pyRound (z : ℚ) n = z := by
  have h : ((z : ℚ) * 10 ^ n) = ((z * 10 ^ n : ℤ) : ℚ) := by push_cast; ring
  have hpow : (10 : ℚ) ^ n ≠ 0 := by positivity
  rw [pyRound, h, roundHalfEven_intCast]
  push_cast
  field_simp

theorem roundWaypoint_intCast (a b : ℤ) :
    roundWaypoint ⟨(a : ℚ), (b : ℚ)⟩ = ⟨(a : ℚ), (b : ℚ)⟩ := by
  simp [roundWaypoint, pyRound_intCast]

example : (load_mission_data_from_mission_waypoints
    [⟨1, 2⟩, ⟨3, 4⟩] initState).1.waypoints_in_mission =
    [⟨1, 2⟩, ⟨1, 2⟩, ⟨3, 4⟩] := by
  have h1 := roundWaypoint_intCast 1 2
  have h2 := roundWaypoint_intCast 3 4
  norm_num at h1 h2
  simp [load_mission_data_from_mission_waypoints, h1, h2, dupHead]

example : (load_mission_data_from_mission_waypoints
    [⟨1, 2⟩, ⟨3, 4⟩] initState).1.last_autopilot_loaded_waypoint_number_end
    = 100 := rfl

example : pySlice [0, 1, 2, 3, 4] 1 3 = [1, 2] := by decide

example : pySlice [0, 1, 2, 3, 4] 2 100 = [2, 3, 4] := by decide

example : pySlice [0, 1, 2, 3, 4] (-2) 100 = [3, 4] := by decide

theorem pySlice_eq_drop_take {α : Type} (l : List α) (a b : ℤ)
    (ha : 0 ≤ a) (hb : 0 ≤ b) :
    pySlice l a b = (l.drop a.toNat).take (b.toNat - a.toNat) := by
  unfold pySlice pyIdx
  rw [if_neg (by omega : ¬ a < 0), if_neg (by omega : ¬ b < 0)]
  apply List.ext_getElem?
  intro j
  rw [List.drop_take]
  simp only [List.getElem?_take, List.getElem?_drop]
  by_cases hα : a.toNat ≤ l.length
  · rw [min_eq_left hα]
    by_cases hj1 : j < min b.toNat l.length - a.toNat
    · rw [if_pos hj1, if_pos (by omega)]
    · rw [if_neg hj1]
      by_cases hj2 : j < b.toNat - a.toNat
      · rw [if_pos hj2]
        exact (List.getElem?_eq_none (by omega)).symm
      · rw [if_neg hj2]
  · rw [min_eq_right (by omega : l.length ≤ a.toNat)]
    have h0 : min b.toNat l.length - l.length = 0 := by omega
    rw [h0]
    simp only [Nat.not_lt_zero, if_false]
    by_cases hj2 : j < b.toNat - a.toNat
    · rw [if_pos hj2]
      exact (List.getElem?_eq_none (by omega)).symm
    · rw [if_neg hj2]

theorem pySlice_eq_missionSeg {α : Type} (l : List α) (a b : ℤ)
    (ha : 0 ≤ a) (hb : -1 ≤ b) :
    pySlice l a (b + 1) = missionSeg l a b := by
  rw [pySlice_eq_drop_take l a (b + 1) ha (by omega), missionSeg]
  congr 1
  omega

theorem pyIdx_le (n : ℕ) (i : ℤ) : pyIdx n i ≤ n := by
  unfold pyIdx
  split <;> omega

theorem pySlice_length {α : Type} (l : List α) (a b : ℤ) :
    (pySlice l a b).length = pyIdx l.length b - pyIdx l.length a := by
  unfold pySlice
  rw [List.length_drop, List.length_take]
  have := pyIdx_le l.length b
  omega

theorem dupHead_length_le {α : Type} (l : List α) :
    (dupHead l).length ≤ l.length + 1 := by
  cases l <;> simp [dupHead]

theorem pySlice_length_le {α : Type} (l : List α) (a b : ℤ) (hb : 0 ≤ b) :
    ((pySlice l a b).length : ℤ) ≤ max (b - a) 0 := by
  have h := pySlice_length l a b
  unfold pyIdx at h
  rw [if_neg (by omega : ¬ b < 0)] at h
  split at h <;> omega

theorem missionSeg_length {α : Type} (l : List α) (a b : ℤ)
    (ha : 0 ≤ a) (hab : a ≤ b) (hb : b ≤ (l.length : ℤ) - 1) :
    ((missionSeg l a b).length : ℤ) = b - a + 1 := by
  rw [missionSeg]
  rw [List.length_take, List.length_drop]
  omega

theorem missionSeg_getElem? {α : Type} (l : List α) (a b : ℤ) (j : ℕ) :
    (missionSeg l a b)[j]? = if (j : ℤ) < b - a + 1 then l[a.toNat + j]? else none := by
  rw [missionSeg]
  simp only [List.getElem?_take, List.getElem?_drop]
  by_cases hj : j < (b - a + 1).toNat
  · rw [if_pos hj, if_pos (by omega)]
  · rw [if_neg hj, if_neg (by omega)]

theorem dupHead_length {α : Type} (l : List α) (h : l ≠ []) :
    (dupHead l).length = l.length + 1 := by
  cases l with
  | nil => exact absurd rfl h
  | cons x xs => simp [dupHead]

theorem dupHead_eq_cons {α : Type} (l : List α) (h : l ≠ []) :
    ∃ a t, dupHead l = a :: a :: t := by
  cases l with
  | nil => exact absurd rfl h
  | cons x xs => exact ⟨x, xs, rfl⟩

/-- Characterization of a successful `load_next_round_of_waypoints`: the new
page start is the old page end, the new page end is
`min (old end + SubsequentPageSize) (mission length)`, and the uploaded page
is the corresponding slice with its head duplicated. -/
theorem load_next_spec (s : RobotState) (h : more_waypoints_to_load s = true) :
    load_next_round_of_waypoints s =
      ({ waypoints_in_mission := s.waypoints_in_mission
         waypoints_in_autopilot := dupHead (pySlice s.waypoints_in_mission
           s.last_autopilot_loaded_waypoint_number_end
           (min (s.last_autopilot_loaded_waypoint_number_end
                  + WAYPOINT_LOAD_COUNT_SUBSEQUENT)
                (s.waypoints_in_mission.length : ℤ) + 1))
         last_autopilot_loaded_waypoint_number_start :=
           s.last_autopilot_loaded_waypoint_number_end
         last_autopilot_loaded_waypoint_number_end :=
           min (s.last_autopilot_loaded_waypoint_number_end
                  + WAYPOINT_LOAD_COUNT_SUBSEQUENT)
               (s.waypoints_in_mission.length : ℤ) },
       [Event.persist, Event.upload]) := by
  unfold load_next_round_of_waypoints
  rw [if_pos h]
  have hmin : (if s.last_autopilot_loaded_waypoint_number_end
        + WAYPOINT_LOAD_COUNT_SUBSEQUENT > (s.waypoints_in_mission.length : ℤ)
      then (s.waypoints_in_mission.length : ℤ)
      else s.last_autopilot_loaded_waypoint_number_end
        + WAYPOINT_LOAD_COUNT_SUBSEQUENT)
      = min (s.last_autopilot_loaded_waypoint_number_end
              + WAYPOINT_LOAD_COUNT_SUBSEQUENT)
            (s.waypoints_in_mission.length : ℤ) := by
    split <;> omega
  dsimp only
  rw [hmin]

theorem pySlice_to_missionSeg {α : Type} (l : List α) (a c : ℤ)
    (ha : 0 ≤ a) (hc : 0 ≤ c) :
    pySlice l a (c + 1) = missionSeg l a (min c ((l.length : ℤ) - 1)) := by
  rw [pySlice_eq_drop_take l a (c + 1) ha (by omega), missionSeg,
    List.take_eq_take]
  rw [List.length_drop]
  omega

theorem nextPages_chain (mission : List Waypoint) (fuel : ℕ) :
    ∀ s : RobotState, s.waypoints_in_mission = mission →
      0 ≤ s.last_autopilot_loaded_waypoint_number_end →
      List.Chain' (pageStepR (mission.length : ℤ) mission)
        (s :: nextPages fuel s) := by
  induction fuel with
  | zero =>
    intro s _ _
    simp [nextPages]
  | succ fuel ih =>
    intro s hm he
    by_cases hmore : more_waypoints_to_load s = true
    · rw [nextPages, if_pos hmore]
      dsimp only
      rw [List.chain'_cons]
      have hmore' := hmore
      rw [more_waypoints_to_load, decide_eq_true_eq,
        end_waypoint_number_of_complete_mission, hm] at hmore'
      constructor
      · rw [load_next_spec s hmore]
        refine ⟨rfl, by rw [hm], hmore', hm, ?_⟩
        dsimp only
        rw [hm]
        rw [pySlice_to_missionSeg mission
          s.last_autopilot_loaded_waypoint_number_end
          (min (s.last_autopilot_loaded_waypoint_number_end
            + WAYPOINT_LOAD_COUNT_SUBSEQUENT) (mission.length : ℤ)) he
          (by simp only [WAYPOINT_LOAD_COUNT_SUBSEQUENT]; omega)]
      · apply ih
        · rw [load_next_spec s hmore]
          exact hm
        · rw [load_next_spec s hmore]
          dsimp only
          simp only [WAYPOINT_LOAD_COUNT_SUBSEQUENT]
          omega
    · rw [nextPages, if_neg hmore]
      simp

theorem nextPages_last_no_more (mission : List Waypoint) (fuel : ℕ) :
    ∀ s : RobotState, s.waypoints_in_mission = mission →
      ((mission.length : ℤ) - 1
        - s.last_autopilot_loaded_waypoint_number_end).toNat ≤ fuel →
      ∀ p : RobotState, (s :: nextPages fuel s).getLast? = some p →
        more_waypoints_to_load p = false := by
  induction fuel with
  | zero =>
    intro s hm hf p hp
    rw [show nextPages 0 s = [] from rfl] at hp
    simp only [List.getLast?_singleton, Option.some.injEq] at hp
    subst hp
    rw [more_waypoints_to_load, end_waypoint_number_of_complete_mission, hm]
    exact decide_eq_false (by omega)
  | succ fuel ih =>
    intro s hm hf p hp
    by_cases hmore : more_waypoints_to_load s = true
    · rw [nextPages, if_pos hmore] at hp
      dsimp only at hp
      rw [List.getLast?_cons_cons] at hp
      have hmore' := hmore
      rw [more_waypoints_to_load, decide_eq_true_eq,
        end_waypoint_number_of_complete_mission, hm] at hmore'
      refine ih (load_next_round_of_waypoints s).1 ?_ ?_ p hp
      · rw [load_next_spec s hmore]
        exact hm
      · rw [load_next_spec s hmore]
        dsimp only
        rw [hm]
        simp only [WAYPOINT_LOAD_COUNT_SUBSEQUENT]
        omega
    · rw [nextPages, if_neg hmore] at hp
      simp only [List.getLast?_singleton, Option.some.injEq] at hp
      subst hp
      exact eq_false_of_ne_true hmore

theorem nextPages_covers (mission : List Waypoint) (fuel : ℕ) :
    ∀ s : RobotState, s.waypoints_in_mission = mission →
      ∀ i : ℤ, s.last_autopilot_loaded_waypoint_number_end < i →
        i ≤ (mission.length : ℤ) - 1 →
        ((mission.length : ℤ) - 1
          - s.last_autopilot_loaded_waypoint_number_end).toNat ≤ fuel →
        ∃ q ∈ nextPages fuel s,
          q.last_autopilot_loaded_waypoint_number_start ≤ i ∧
          i ≤ min q.last_autopilot_loaded_waypoint_number_end
                ((mission.length : ℤ) - 1) := by
  induction fuel with
  | zero =>
    intro s hm i hlt hle hf
    exfalso
    omega
  | succ fuel ih =>
    intro s hm i hlt hle hf
    have hmore : more_waypoints_to_load s = true := by
      rw [more_waypoints_to_load, decide_eq_true_eq,
        end_waypoint_number_of_complete_mission, hm]
      omega
    rw [nextPages, if_pos hmore]
    dsimp only
    have hfields :
        (load_next_round_of_waypoints
            s).1.last_autopilot_loaded_waypoint_number_start
          = s.last_autopilot_loaded_waypoint_number_end ∧
        (load_next_round_of_waypoints
            s).1.last_autopilot_loaded_waypoint_number_end
          = min (s.last_autopilot_loaded_waypoint_number_end
              + WAYPOINT_LOAD_COUNT_SUBSEQUENT) (mission.length : ℤ) ∧
        (load_next_round_of_waypoints s).1.waypoints_in_mission = mission := by
      rw [load_next_spec s hmore]
      exact ⟨rfl, by rw [hm], hm⟩
    obtain ⟨hq1, hq2, hq3⟩ := hfields
    by_cases hin : i ≤ min (load_next_round_of_waypoints
        s).1.last_autopilot_loaded_waypoint_number_end ((mission.length : ℤ) - 1)
    · exact ⟨(load_next_round_of_waypoints s).1, List.mem_cons_self _ _,
        by omega, hin⟩
    · obtain ⟨q, hqmem, hqa, hqb⟩ := ih (load_next_round_of_waypoints s).1 hq3 i
        (by
          rw [hq2]
          rw [hq2] at hin
          simp only [WAYPOINT_LOAD_COUNT_SUBSEQUENT] at *
          omega)
        hle
        (by
          rw [hq2]
          simp only [WAYPOINT_LOAD_COUNT_SUBSEQUENT]
          omega)
      exact ⟨q, List.mem_cons_of_mem _ hqmem, hqa, hqb⟩

theorem intervals_chain_overlap (L : ℤ) (mission : List Waypoint) :
    ∀ (l : List RobotState) (p : RobotState) (a : ℤ × ℤ),
      List.Chain' (pageStepR L mission) (p :: l) →
      a.1 ≤ a.2 →
      a.2 = min p.last_autopilot_loaded_waypoint_number_end (L - 1) →
      List.Chain' pageOverlapR
        (a :: l.map (fun q => (q.last_autopilot_loaded_waypoint_number_start,
          min q.last_autopilot_loaded_waypoint_number_end (L - 1)))) := by
  intro l
  induction l with
  | nil =>
    intro p a _ _ _
    simp
  | cons q t ih =>
    intro p a hch ha1 ha2
    obtain ⟨hR, hch'⟩ := List.chain'_cons.mp hch
    obtain ⟨h1, h2, h3, _, _⟩ := hR
    rw [List.map_cons, List.chain'_cons]
    constructor
    · constructor
      · dsimp only
        omega
      · intro i
        dsimp only
        simp only [WAYPOINT_LOAD_COUNT_SUBSEQUENT] at h2
        constructor
        · intro hi
          omega
        · intro hi
          omega
    · refine ih q _ hch' ?_ rfl
      dsimp only
      simp only [WAYPOINT_LOAD_COUNT_SUBSEQUENT] at h2
      omega

theorem nextPages_ne_nil_more (fuel : ℕ) (s : RobotState)
    (h : nextPages fuel s ≠ []) : more_waypoints_to_load s = true := by
  cases fuel with
  | zero => exact absurd rfl h
  | succ f =>
    by_cases hm : more_waypoints_to_load s = true
    · exact hm
    · rw [nextPages, if_neg hm] at h
      exact absurd rfl h

/-- C1: starting from `LoadMission`, the loaded pages — described by their
mission-index intervals, the first page `[0, min InitialPageSize (L-1)]` and
each subsequent page `[start, min end (L-1)]` — chain so that every new page
starts exactly at the previous page's recorded end (`pageStepR`, which also
pins each uploaded page to the corresponding mission segment), the loop stops
with no waypoints left to load, every mission index in `[0, L-1]` is covered
by some page interval, and consecutive page intervals overlap in exactly one
mission index (`pageOverlapR`). -/
theorem c1_pages_cover_mission (w : List Waypoint) (sAny s0 : RobotState)
    (mission : List Waypoint) (L : ℤ) (trail : List RobotState)
    (intervals : List (ℤ × ℤ))
    (hs0 : s0 = (load_mission_data_from_mission_waypoints w sAny).1)
    (hmission : mission = s0.waypoints_in_mission)
    (hL : L = (mission.length : ℤ))
    (htrail : trail = nextPages mission.length s0)
    (hintervals : intervals
      = (0, min WAYPOINT_LOAD_COUNT_INITIAL (L - 1))
        :: trail.map (fun q => (q.last_autopilot_loaded_waypoint_number_start,
            min q.last_autopilot_loaded_waypoint_number_end (L - 1)))) :
    s0.waypoints_in_autopilot
        = missionSeg mission 0 (min WAYPOINT_LOAD_COUNT_INITIAL (L - 1)) ∧
    List.Chain' (pageStepR L mission) (s0 :: trail) ∧
    (∀ p : RobotState, (s0 :: trail).getLast? = some p →
      more_waypoints_to_load p = false) ∧
    (∀ i : ℤ, 0 ≤ i → i ≤ L - 1 →
      ∃ iv ∈ intervals, iv.1 ≤ i ∧ i ≤ iv.2) ∧
    List.Chain' pageOverlapR intervals := by
  subst hintervals
  subst htrail
  subst hL
  have he0 : s0.last_autopilot_loaded_waypoint_number_end
      = WAYPOINT_LOAD_COUNT_INITIAL := by
    rw [hs0]
    rfl
  have he0' : 0 ≤ s0.last_autopilot_loaded_waypoint_number_end := by
    rw [he0]
    simp only [WAYPOINT_LOAD_COUNT_INITIAL]
    norm_num
  have hm0 : s0.waypoints_in_mission = mission := hmission.symm
  refine ⟨?_, ?_, ?_, ?_, ?_⟩
  · rw [hmission, hs0,
      ← pySlice_to_missionSeg ((load_mission_data_from_mission_waypoints w
          sAny).1.waypoints_in_mission) 0 WAYPOINT_LOAD_COUNT_INITIAL
        (le_refl 0)
        (by simp only [WAYPOINT_LOAD_COUNT_INITIAL]; norm_num)]
    rfl
  · exact nextPages_chain mission mission.length s0 hm0 he0'
  · exact nextPages_last_no_more mission mission.length s0 hm0
      (by rw [he0]; simp only [WAYPOINT_LOAD_COUNT_INITIAL]; omega)
  · intro i h0 hle
    by_cases hsmall : i ≤ min WAYPOINT_LOAD_COUNT_INITIAL
        ((mission.length : ℤ) - 1)
    · exact ⟨(0, min WAYPOINT_LOAD_COUNT_INITIAL ((mission.length : ℤ) - 1)),
        List.mem_cons_self _ _, h0, hsmall⟩
    · have hgt : s0.last_autopilot_loaded_waypoint_number_end < i := by
        rw [he0]
        simp only [WAYPOINT_LOAD_COUNT_INITIAL] at hsmall ⊢
        omega
      obtain ⟨q, hq, ha, hb⟩ := nextPages_covers mission mission.length s0
        hm0 i hgt hle
        (by rw [he0]; simp only [WAYPOINT_LOAD_COUNT_INITIAL]; omega)
      exact ⟨(q.last_autopilot_loaded_waypoint_number_start,
          min q.last_autopilot_loaded_waypoint_number_end
            ((mission.length : ℤ) - 1)),
        List.mem_cons_of_mem _ (List.mem_map_of_mem _ hq), ha, hb⟩
  · rcases hT : nextPages mission.length s0 with _ | ⟨q, t⟩
    · simp
    · have hmore0 : more_waypoints_to_load s0 = true :=
        nextPages_ne_nil_more mission.length s0 (by rw [hT]; simp)
      have hI : s0.last_autopilot_loaded_waypoint_number_end
          < (mission.length : ℤ) - 1 := by
        rw [more_waypoints_to_load, decide_eq_true_eq,
          end_waypoint_number_of_complete_mission, hm0] at hmore0
        exact hmore0
      have hchain := nextPages_chain mission mission.length s0 hm0 he0'
      rw [hT] at hchain
      have happ := intervals_chain_overlap (mission.length : ℤ) mission
        (q :: t) s0
        (0, min WAYPOINT_LOAD_COUNT_INITIAL ((mission.length : ℤ) - 1))
        hchain
        (by
          dsimp only
          rw [he0] at hI
          simp only [WAYPOINT_LOAD_COUNT_INITIAL] at hI ⊢
          omega)
        (by dsimp only; rw [he0])
      exact happ

/-- Witness for C1 on a concrete 150-waypoint mission (mission list length
151, two pages): mission index 120 is covered by some page interval. -/
theorem c1_pages_cover_mission_witness :
    ∃ iv ∈ ((0 : ℤ), min WAYPOINT_LOAD_COUNT_INITIAL
        (((load_mission_data_from_mission_waypoints
          (List.replicate 150 (Waypoint.mk 1 2))
          initState).1.waypoints_in_mission.length : ℤ) - 1))
      :: (nextPages (load_mission_data_from_mission_waypoints
            (List.replicate 150 (Waypoint.mk 1 2))
            initState).1.waypoints_in_mission.length
          (load_mission_data_from_mission_waypoints
            (List.replicate 150 (Waypoint.mk 1 2)) initState).1).map
          (fun q => (q.last_autopilot_loaded_waypoint_number_start,
            min q.last_autopilot_loaded_waypoint_number_end
              (((load_mission_data_from_mission_waypoints
                (List.replicate 150 (Waypoint.mk 1 2))
                initState).1.waypoints_in_mission.length : ℤ) - 1))),
      iv.1 ≤ (120 : ℤ) ∧ (120 : ℤ) ≤ iv.2 := by
  have h := (c1_pages_cover_mission (List.replicate 150 (Waypoint.mk 1 2))
    initState _ _ _ _ _ rfl rfl rfl rfl rfl).2.2.2.1 120 (by norm_num)
    (by
      show (120 : ℤ) ≤ ((dupHead ((List.replicate 150
        (Waypoint.mk 1 2)).map roundWaypoint)).length : ℤ) - 1
      rw [dupHead_length _ (by
        intro hc
        have := congrArg List.length hc
        simp only [List.length_map, List.length_replicate,
          List.length_nil] at this
        omega), List.length_map, List.length_replicate]
      norm_num)
  exact h

theorem applyCleanup_mission_eq (s : RobotState) :
    (applyCleanup s).waypoints_in_mission
      = dupHead (s.waypoints_in_mission.map roundWaypoint) := rfl

theorem applyCleanup_length (s : RobotState) (h : s.waypoints_in_mission ≠ []) :
    (applyCleanup s).waypoints_in_mission.length
      = s.waypoints_in_mission.length + 1 := by
  rw [applyCleanup_mission_eq, dupHead_length _ (by simpa using h)]
  simp

/-- C9: `LoadMission` twice with the same list gives identical paging state
(the operation clears and rebuilds all four state components from its
argument, reading nothing from the prior state). -/
theorem c9_load_mission_twice_same_state (w : List Waypoint) (s : RobotState) :
    (load_mission_data_from_mission_waypoints w
        (load_mission_data_from_mission_waypoints w s).1).1
      = (load_mission_data_from_mission_waypoints w s).1 := rfl

/-- C10: each `end_of_mission_cleanup` call feeds the home-prefixed mission
back into `load_mission_data_from_mission_waypoints`, which prepends another
copy of the head, so the stored mission grows by one element per call, its
first two elements are equal, and `n` repeated cleanups grow it by `n`. -/
theorem c10_end_of_mission_cleanup_accumulates (s : RobotState)
    (h : s.waypoints_in_mission ≠ []) :
    ((end_of_mission_cleanup s).1.waypoints_in_mission.length
        = s.waypoints_in_mission.length + 1) ∧
    (∃ a t, (end_of_mission_cleanup s).1.waypoints_in_mission = a :: a :: t) ∧
    (∀ n : ℕ, (applyCleanup^[n] s).waypoints_in_mission.length
        = s.waypoints_in_mission.length + n) := by
  refine ⟨applyCleanup_length s h, ?_, ?_⟩
  · rw [show (end_of_mission_cleanup s).1 = applyCleanup s from rfl,
      applyCleanup_mission_eq]
    exact dupHead_eq_cons _ (by simpa using h)
  · intro n
    induction n generalizing s with
    | zero => simp
    | succ k ih =>
      have hne : (applyCleanup s).waypoints_in_mission ≠ [] := by
        intro hnil
        have hl := applyCleanup_length s h
        rw [hnil] at hl
        simp only [List.length_nil] at hl
        omega
      rw [Function.iterate_succ_apply, ih (applyCleanup s) hne,
        applyCleanup_length s h]
      omega

/-- Witness for C10 at a concrete one-point mission: after one cleanup the
stored mission has two (equal) points, after three cleanups four points. -/
theorem c10_end_of_mission_cleanup_accumulates_witness :
    (end_of_mission_cleanup
        ⟨[⟨1, 2⟩], [⟨1, 2⟩], 1, 100⟩).1.waypoints_in_mission.length = 2 ∧
    (applyCleanup^[3] ⟨[⟨1, 2⟩], [⟨1, 2⟩], 1, 100⟩).waypoints_in_mission.length = 4 := by
  have h := c10_end_of_mission_cleanup_accumulates
    ⟨[⟨1, 2⟩], [⟨1, 2⟩], 1, 100⟩ (by simp)
  exact ⟨by simpa using h.1, by simpa using h.2.2 3⟩

/-- C2 counterexample: (i) `LoadMission` on a 1-waypoint list records page
end 100 although the stored mission has length 2, so the recorded end exceeds
the last valid mission index 1; (ii) after `LoadMission` on 350 waypoints, a
`LoadNextPage` uploads a page of 252 waypoints, exceeding
`SubsequentPageSize + 1 = 251`. -/
theorem c2_counterexample :
    ((load_mission_data_from_mission_waypoints [⟨0, 0⟩]
        initState).1.last_autopilot_loaded_waypoint_number_end = 100 ∧
      (load_mission_data_from_mission_waypoints [⟨0, 0⟩]
        initState).1.waypoints_in_mission.length = 2 ∧
      ¬ ((100 : ℤ) ≤ (2 : ℤ) - 1)) ∧
    ((load_next_round_of_waypoints
        (load_mission_data_from_mission_waypoints
          (List.replicate 350 ⟨0, 0⟩)
          initState).1).1.waypoints_in_autopilot.length = 252 ∧
      ¬ ((252 : ℤ) ≤ WAYPOINT_LOAD_COUNT_SUBSEQUENT + 1)) := by
  refine ⟨⟨rfl, rfl, by norm_num⟩,
    ⟨?_, by norm_num [WAYPOINT_LOAD_COUNT_SUBSEQUENT]⟩⟩
  have hmlen : (load_mission_data_from_mission_waypoints
      (List.replicate 350 (Waypoint.mk 0 0))
      initState).1.waypoints_in_mission.length = 351 := by
    show (dupHead ((List.replicate 350 (Waypoint.mk 0 0)).map
      roundWaypoint)).length = 351
    rw [dupHead_length _ (by
      intro h
      have hc := congrArg List.length h
      simp only [List.length_map, List.length_replicate,
        List.length_nil] at hc
      omega), List.length_map, List.length_replicate]
  have hmore : more_waypoints_to_load (load_mission_data_from_mission_waypoints
      (List.replicate 350 (Waypoint.mk 0 0)) initState).1 = true := by
    rw [more_waypoints_to_load, decide_eq_true_eq,
      end_waypoint_number_of_complete_mission, hmlen]
    show (100 : ℤ) < ((351 : ℕ) : ℤ) - 1
    norm_num
  rw [load_next_spec _ hmore]
  dsimp only
  set M := (load_mission_data_from_mission_waypoints
    (List.replicate 350 (Waypoint.mk 0 0))
    initState).1.waypoints_in_mission with hMdef
  set E := (load_mission_data_from_mission_waypoints
    (List.replicate 350 (Waypoint.mk 0 0))
    initState).1.last_autopilot_loaded_waypoint_number_end with hEdef
  have hE : E = 100 := rfl
  set B := min (E + WAYPOINT_LOAD_COUNT_SUBSEQUENT) ((M.length : ℕ) : ℤ) + 1
    with hBdef
  have hB : B = 351 := by
    rw [hBdef, hE, hmlen]
    simp only [WAYPOINT_LOAD_COUNT_SUBSEQUENT]
    omega
  have h1 : (pySlice M E B).length = 251 := by
    rw [pySlice_length]
    unfold pyIdx
    rw [hmlen, hB, hE]
    split_ifs <;> omega
  rw [dupHead_length _ (by
    intro hnil
    rw [hnil] at h1
    simp at h1), h1]

/-- C2 amended: after `LoadMission` the recorded bounds are `[1, 100]`
regardless of mission length (within `[0, L-1]` only when `L ≥ 101`) and the
first page has at most `InitialPageSize + 1` waypoints; after a `LoadNextPage`
the new start is the old end, start < end, the recorded end is at most `L`
(it may equal `L`, one past the last valid index), and the uploaded page has
at most `SubsequentPageSize + 2` waypoints; after a `LoadPriorPage` start ≤
end, the recorded end is at most `max InitialPageSize oldStart`, and the
uploaded page has at most `SubsequentPageSize + 2` waypoints. -/
theorem c2_page_bounds_amended :
    (∀ (w : List Waypoint) (s : RobotState),
      (load_mission_data_from_mission_waypoints w
          s).1.last_autopilot_loaded_waypoint_number_start = 1 ∧
      (load_mission_data_from_mission_waypoints w
          s).1.last_autopilot_loaded_waypoint_number_end
        = WAYPOINT_LOAD_COUNT_INITIAL ∧
      (WAYPOINT_LOAD_COUNT_INITIAL
          ≤ ((load_mission_data_from_mission_waypoints w
              s).1.waypoints_in_mission.length : ℤ) - 1 →
        (load_mission_data_from_mission_waypoints w
            s).1.last_autopilot_loaded_waypoint_number_end
          ≤ ((load_mission_data_from_mission_waypoints w
              s).1.waypoints_in_mission.length : ℤ) - 1) ∧
      ((load_mission_data_from_mission_waypoints w
          s).1.waypoints_in_autopilot.length : ℤ)
        ≤ WAYPOINT_LOAD_COUNT_INITIAL + 1) ∧
    (∀ s : RobotState, more_waypoints_to_load s = true →
      0 ≤ s.last_autopilot_loaded_waypoint_number_end →
      (load_next_round_of_waypoints
          s).1.last_autopilot_loaded_waypoint_number_start
        = s.last_autopilot_loaded_waypoint_number_end ∧
      (load_next_round_of_waypoints
          s).1.last_autopilot_loaded_waypoint_number_start
        < (load_next_round_of_waypoints
            s).1.last_autopilot_loaded_waypoint_number_end ∧
      (load_next_round_of_waypoints
          s).1.last_autopilot_loaded_waypoint_number_end
        ≤ ((load_next_round_of_waypoints
            s).1.waypoints_in_mission.length : ℤ) ∧
      ((load_next_round_of_waypoints s).1.waypoints_in_autopilot.length : ℤ)
        ≤ WAYPOINT_LOAD_COUNT_SUBSEQUENT + 2) ∧
    (∀ s : RobotState, prior_waypoints_to_load s = true →
      0 ≤ s.last_autopilot_loaded_waypoint_number_start →
      (load_prior_round_of_waypoints
          s).1.last_autopilot_loaded_waypoint_number_start
        ≤ (load_prior_round_of_waypoints
            s).1.last_autopilot_loaded_waypoint_number_end ∧
      (load_prior_round_of_waypoints
          s).1.last_autopilot_loaded_waypoint_number_end
        ≤ max WAYPOINT_LOAD_COUNT_INITIAL
            s.last_autopilot_loaded_waypoint_number_start ∧
      ((load_prior_round_of_waypoints s).1.waypoints_in_autopilot.length : ℤ)
        ≤ WAYPOINT_LOAD_COUNT_SUBSEQUENT + 2) := by
  refine ⟨?_, ?_, ?_⟩
  · intro w s
    refine ⟨rfl, rfl, fun h => h, ?_⟩
    show ((pySlice (dupHead (w.map roundWaypoint)) 0
      (WAYPOINT_LOAD_COUNT_INITIAL + 1)).length : ℤ)
      ≤ WAYPOINT_LOAD_COUNT_INITIAL + 1
    have h := pySlice_length_le (dupHead (w.map roundWaypoint)) 0
      (WAYPOINT_LOAD_COUNT_INITIAL + 1)
      (by simp only [WAYPOINT_LOAD_COUNT_INITIAL]; norm_num)
    simp only [WAYPOINT_LOAD_COUNT_INITIAL] at *
    omega
  · intro s hmore h0
    have hsp := load_next_spec s hmore
    rw [more_waypoints_to_load, decide_eq_true_eq,
      end_waypoint_number_of_complete_mission] at hmore
    rw [hsp]
    dsimp only
    refine ⟨rfl, ?_, ?_, ?_⟩
    · simp only [WAYPOINT_LOAD_COUNT_SUBSEQUENT] at *
      omega
    · simp only [WAYPOINT_LOAD_COUNT_SUBSEQUENT] at *
      omega
    · have h1 := pySlice_length_le s.waypoints_in_mission
        s.last_autopilot_loaded_waypoint_number_end
        (min (s.last_autopilot_loaded_waypoint_number_end
              + WAYPOINT_LOAD_COUNT_SUBSEQUENT)
            (s.waypoints_in_mission.length : ℤ) + 1)
        (by simp only [WAYPOINT_LOAD_COUNT_SUBSEQUENT]; omega)
      have h2 := dupHead_length_le (pySlice s.waypoints_in_mission
        s.last_autopilot_loaded_waypoint_number_end
        (min (s.last_autopilot_loaded_waypoint_number_end
              + WAYPOINT_LOAD_COUNT_SUBSEQUENT)
            (s.waypoints_in_mission.length : ℤ) + 1))
      simp only [WAYPOINT_LOAD_COUNT_SUBSEQUENT] at *
      omega
  · intro s hprior h0
    have hp := hprior
    rw [prior_waypoints_to_load, decide_eq_true_eq] at hp
    unfold load_prior_round_of_waypoints
    rw [if_pos hprior]
    split
    · dsimp only
      refine ⟨by simp only [WAYPOINT_LOAD_COUNT_INITIAL]; norm_num,
        le_max_left _ _, ?_⟩
      have h1 := pySlice_length_le s.waypoints_in_mission 0
        (WAYPOINT_LOAD_COUNT_INITIAL + 1)
        (by simp only [WAYPOINT_LOAD_COUNT_INITIAL]; norm_num)
      simp only [WAYPOINT_LOAD_COUNT_INITIAL,
        WAYPOINT_LOAD_COUNT_SUBSEQUENT] at *
      omega
    · dsimp only
      refine ⟨by simp only [WAYPOINT_LOAD_COUNT_SUBSEQUENT]; omega,
        le_max_right _ _, ?_⟩
      have h1 := pySlice_length_le s.waypoints_in_mission
        (s.last_autopilot_loaded_waypoint_number_start
          - WAYPOINT_LOAD_COUNT_SUBSEQUENT - 1)
        (s.last_autopilot_loaded_waypoint_number_start + 1)
        (by omega)
      simp only [WAYPOINT_LOAD_COUNT_SUBSEQUENT] at *
      omega

/-- Witness for C2 (amended) on concrete runs: the second page loaded after a
350-waypoint mission starts at the previous end 100, ends at 350 = mission
length, and carries at most 252 waypoints. -/
theorem c2_page_bounds_amended_witness :
    (load_next_round_of_waypoints
        (load_mission_data_from_mission_waypoints
          (List.replicate 350 (Waypoint.mk 0 0))
          initState).1).1.last_autopilot_loaded_waypoint_number_start = 100 ∧
    ((load_next_round_of_waypoints
        (load_mission_data_from_mission_waypoints
          (List.replicate 350 (Waypoint.mk 0 0))
          initState).1).1.waypoints_in_autopilot.length : ℤ) ≤ 252 := by
  have h := c2_page_bounds_amended.2.1
    (load_mission_data_from_mission_waypoints
      (List.replicate 350 (Waypoint.mk 0 0)) initState).1
    (by rfl) (by show (0 : ℤ) ≤ 100; norm_num)
  refine ⟨h.1, ?_⟩
  have := h.2.2.2
  rw [WAYPOINT_LOAD_COUNT_SUBSEQUENT] at this
  omega

/-- C3 counterexample: from page bounds `[350, 600]`, `LoadPriorPage` stores
the new page end 350 but returns the constant
`WAYPOINT_LOAD_COUNT_SUBSEQUENT = 250`, so the return value is not the stored
page end index. -/
theorem c3_counterexample :
    prior_waypoints_to_load c3State = true ∧
    (load_prior_round_of_waypoints c3State).2.2 = 250 ∧
    (load_prior_round_of_waypoints
        c3State).1.last_autopilot_loaded_waypoint_number_end = 350 ∧
    (250 : ℤ) ≠ 350 := ⟨rfl, rfl, rfl, by norm_num⟩

/-- C3 amended: when `prior_waypoints_to_load` is false the call returns `-1`
and leaves the state unchanged; when it is true the prior window is sliced,
persisted and uploaded, and the return value is `InitialPageSize` in the
rewind branch (where it coincides with the new page end) and the constant
`SubsequentPageSize` in the deep branch (where the new page end is the old
page start, so the return value is page-relative, not the stored end). -/
theorem c3_load_prior_amended (s : RobotState) :
    (prior_waypoints_to_load s = false →
      load_prior_round_of_waypoints s = (s, ([], -1))) ∧
    (prior_waypoints_to_load s = true →
      (load_prior_round_of_waypoints s).2.1 = [Event.persist, Event.upload] ∧
      (load_prior_round_of_waypoints s).1.waypoints_in_autopilot
        = pySlice s.waypoints_in_mission
            (load_prior_round_of_waypoints
              s).1.last_autopilot_loaded_waypoint_number_start
            ((load_prior_round_of_waypoints
              s).1.last_autopilot_loaded_waypoint_number_end + 1) ∧
      (s.last_autopilot_loaded_waypoint_number_end
          ≤ WAYPOINT_LOAD_COUNT_INITIAL + WAYPOINT_LOAD_COUNT_SUBSEQUENT →
        (load_prior_round_of_waypoints s).2.2 = WAYPOINT_LOAD_COUNT_INITIAL ∧
        (load_prior_round_of_waypoints
            s).1.last_autopilot_loaded_waypoint_number_start = 0 ∧
        (load_prior_round_of_waypoints
            s).1.last_autopilot_loaded_waypoint_number_end
          = WAYPOINT_LOAD_COUNT_INITIAL ∧
        (load_prior_round_of_waypoints s).2.2
          = (load_prior_round_of_waypoints
              s).1.last_autopilot_loaded_waypoint_number_end) ∧
      (¬ s.last_autopilot_loaded_waypoint_number_end
          ≤ WAYPOINT_LOAD_COUNT_INITIAL + WAYPOINT_LOAD_COUNT_SUBSEQUENT →
        (load_prior_round_of_waypoints s).2.2 = WAYPOINT_LOAD_COUNT_SUBSEQUENT ∧
        (load_prior_round_of_waypoints
            s).1.last_autopilot_loaded_waypoint_number_start
          = s.last_autopilot_loaded_waypoint_number_start
            - WAYPOINT_LOAD_COUNT_SUBSEQUENT - 1 ∧
        (load_prior_round_of_waypoints
            s).1.last_autopilot_loaded_waypoint_number_end
          = s.last_autopilot_loaded_waypoint_number_start)) := by
  constructor
  · intro hfalse
    unfold load_prior_round_of_waypoints
    rw [if_neg (by simp [hfalse])]
  · intro htrue
    unfold load_prior_round_of_waypoints
    rw [if_pos htrue]
    by_cases hb : s.last_autopilot_loaded_waypoint_number_end
        ≤ WAYPOINT_LOAD_COUNT_INITIAL + WAYPOINT_LOAD_COUNT_SUBSEQUENT
    · rw [if_pos hb]
      exact ⟨rfl, rfl, fun _ => ⟨rfl, rfl, rfl, rfl⟩, fun h => absurd hb h⟩
    · rw [if_neg hb]
      exact ⟨rfl, rfl, fun h => absurd h hb, fun _ => ⟨rfl, rfl, rfl⟩⟩

/-- C4 counterexample: with a nonempty page, position data present and the
progress index at the page's first point (`seq = 0`), requesting the distance
to the previous waypoint returns `0`, not the sentinel `-1` the claim
demands. -/
theorem c4_counterexample :
    get_prev_wp_dist_in_meters (fun _ _ => 7)
      { waypoints_in_mission := [⟨1, 1⟩, ⟨2, 2⟩]
        waypoints_in_autopilot := [⟨1, 1⟩, ⟨2, 2⟩]
        last_autopilot_loaded_waypoint_number_start := 1
        last_autopilot_loaded_waypoint_number_end := 100 }
      { global_position_int := some ⟨305634410, -876780089⟩
        mission_current := some 0 } = some 0 ∧
    some (0 : ℚ) ≠ some (-1 : ℚ) := by
  refine ⟨rfl, by norm_num⟩

/-- C4 amended: both distance helpers return the sentinel `-1` exactly when
the page is empty or the position or mission-progress entry is absent; with
everything present, requesting "previous" at the page's first point returns
`0` (not `-1`), and for progress indices addressing a point inside the loaded
page both helpers return a nonnegative rounded distance. -/
theorem c4_distance_sentinels_amended (hav : ℚ × ℚ → ℚ × ℚ → ℚ)
    (s : RobotState) (d : AutopilotData) :
    (s.waypoints_in_autopilot = [] ∨ d.global_position_int = none
        ∨ d.mission_current = none →
      get_prev_wp_dist_in_meters hav s d = some (-1) ∧
      get_wp_dist_in_meters hav s d = some (-1)) ∧
    (∀ utm, d.global_position_int = some utm → d.mission_current = some 0 →
      s.waypoints_in_autopilot ≠ [] →
      get_prev_wp_dist_in_meters hav s d = some 0) ∧
    (∀ utm seq, d.global_position_int = some utm →
      d.mission_current = some seq →
      1 ≤ seq → seq - 1 < (s.waypoints_in_autopilot.length : ℤ) →
      ∃ q, get_prev_wp_dist_in_meters hav s d = some q ∧ 0 ≤ q) ∧
    (∀ utm seq, d.global_position_int = some utm →
      d.mission_current = some seq →
      0 ≤ seq → (if seq = 0 then 1 else seq)
          < (s.waypoints_in_autopilot.length : ℤ) →
      ∃ q, get_wp_dist_in_meters hav s d = some q ∧ 0 ≤ q) := by
  refine ⟨?_, ?_, ?_, ?_⟩
  · intro habs
    unfold get_prev_wp_dist_in_meters get_wp_dist_in_meters
    rcases habs with h | h | h
    · rcases hpos : d.global_position_int with _ | utm <;>
        rcases hmc : d.mission_current with _ | seq <;>
        simp [h]
    · rw [h]
      rcases d.mission_current with _ | seq <;> simp
    · rw [h]
      rcases d.global_position_int with _ | utm <;> simp
  · intro utm hpos hmc hne
    unfold get_prev_wp_dist_in_meters
    rw [hpos, hmc]
    dsimp only
    rw [if_pos (List.length_pos.mpr hne), if_pos (by norm_num)]
  · intro utm seq hpos hmc h1 h2
    unfold get_prev_wp_dist_in_meters
    rw [hpos, hmc]
    dsimp only
    rw [if_pos (by omega), if_neg (by omega)]
    have hget : pyGet s.waypoints_in_autopilot (seq - 1)
        = some (s.waypoints_in_autopilot.get
            ⟨(seq - 1).toNat, by omega⟩) := by
      unfold pyGet
      rw [if_pos (by omega)]
      rw [List.getElem?_eq_getElem (by omega)]
      simp
    rw [hget]
    exact ⟨_, rfl, abs_nonneg _⟩
  · intro utm seq hpos hmc h1 h2
    unfold get_wp_dist_in_meters
    rw [hpos, hmc]
    dsimp only
    have hlt : (if seq = 0 then (1 : ℤ) else seq)
        < (s.waypoints_in_autopilot.length : ℤ) := h2
    rw [if_pos (by split at hlt <;> omega)]
    have hge : 0 ≤ (if seq = 0 then (1 : ℤ) else seq) := by split <;> omega
    have hget : pyGet s.waypoints_in_autopilot (if seq = 0 then 1 else seq)
        = some (s.waypoints_in_autopilot.get
            ⟨(if seq = 0 then (1 : ℤ) else seq).toNat, by omega⟩) := by
      unfold pyGet
      rw [if_pos hge]
      rw [List.getElem?_eq_getElem (by omega)]
      simp
    rw [hget]
    exact ⟨_, rfl, abs_nonneg _⟩

/-- Witness for C4 (amended) at concrete inputs: an empty page yields the
sentinel `-1`, and an in-page progress index yields a nonnegative distance. -/
theorem c4_distance_sentinels_amended_witness :
    (get_prev_wp_dist_in_meters (fun _ _ => 7) initState
      { global_position_int := some ⟨305634410, -876780089⟩
        mission_current := some 3 } = some (-1)) ∧
    (∃ q, get_wp_dist_in_meters (fun _ _ => 7)
      { waypoints_in_mission := [⟨1, 1⟩, ⟨2, 2⟩]
        waypoints_in_autopilot := [⟨1, 1⟩, ⟨2, 2⟩]
        last_autopilot_loaded_waypoint_number_start := 1
        last_autopilot_loaded_waypoint_number_end := 100 }
      { global_position_int := some ⟨305634410, -876780089⟩
        mission_current := some 1 } = some q ∧ 0 ≤ q) := by
  constructor
  · exact (c4_distance_sentinels_amended (fun _ _ => 7) initState
      { global_position_int := some ⟨305634410, -876780089⟩
        mission_current := some 3 }).1 (Or.inl rfl) |>.1
  · exact (c4_distance_sentinels_amended (fun _ _ => 7)
      { waypoints_in_mission := [⟨1, 1⟩, ⟨2, 2⟩]
        waypoints_in_autopilot := [⟨1, 1⟩, ⟨2, 2⟩]
        last_autopilot_loaded_waypoint_number_start := 1
        last_autopilot_loaded_waypoint_number_end := 100 }
      { global_position_int := some ⟨305634410, -876780089⟩
        mission_current := some 1 }).2.2.2 ⟨305634410, -876780089⟩ 1
      rfl rfl (by norm_num) (by norm_num)

/-- C5 counterexample: at progress index 60 on a page ending at 100
(so 40 points remain before the boundary), the claimed translated target is
`50 - (E - c) = 10`, but `goto_wp_plus_50` issues `GotoWaypoint 11`
(the source adds one), and no `GotoWaypoint 10` appears in the trace. -/
theorem c5_counterexample :
    (goto_wp_plus_50 false c5State ⟨none, some 60⟩).2
      = [Event.persist, Event.upload, Event.gotoWp 11] ∧
    (50 : ℤ) - (end_waypoint_number_of_waypoints_in_autopilot c5State - 60)
      = 10 ∧
    Event.gotoWp 10 ∉ (goto_wp_plus_50 false c5State ⟨none, some 60⟩).2 := by
  refine ⟨by decide, by decide, by decide⟩

/-- C5 amended: when the raw target `c + 50` is beyond the loaded page and
more pages remain, `goto_wp_plus_50` loads the next page and issues
`GotoWaypoint (50 - (E - c) + 1)` — the remaining points before the boundary
subtracted from 50, plus one — and when `c + 50` is within the page it issues
`GotoWaypoint (c + 50)` with no page load. -/
theorem c5_goto_plus50_translation_amended (wasAuto : Bool) (s : RobotState)
    (d : AutopilotData) (c : ℤ) :
    (d.mission_current = some c →
      c + 50 > end_waypoint_number_of_waypoints_in_autopilot s →
      more_waypoints_to_load s = true →
      goto_wp_plus_50 wasAuto s d = ((load_next_round_of_waypoints s).1,
        (if wasAuto then [Event.hold] else [])
          ++ (load_next_round_of_waypoints s).2
          ++ [Event.gotoWp
              (50 - (end_waypoint_number_of_waypoints_in_autopilot s - c) + 1)]
          ++ (if wasAuto then [Event.startRobot] else []))) ∧
    (d.mission_current = some c →
      c + 50 ≤ end_waypoint_number_of_waypoints_in_autopilot s →
      goto_wp_plus_50 wasAuto s d = (s, [Event.gotoWp (c + 50)])) := by
  constructor
  · intro hmc hgt hmore
    unfold goto_wp_plus_50
    rw [hmc]
    dsimp only
    rw [if_pos hgt, if_pos hmore]
    rfl
  · intro hmc hle
    unfold goto_wp_plus_50
    rw [hmc]
    dsimp only
    rw [if_neg (by omega)]
    rfl

/-- Witness for C5 (amended): at progress index 60 with page end 100 and
more pages available the trace is `persist, upload, GotoWaypoint 11`; at
progress index 10 the single event is `GotoWaypoint 60`. -/
theorem c5_goto_plus50_translation_amended_witness :
    goto_wp_plus_50 false c5State ⟨none, some 60⟩
      = ((load_next_round_of_waypoints c5State).1,
          (load_next_round_of_waypoints c5State).2 ++ [Event.gotoWp 11]) ∧
    goto_wp_plus_50 false c5State ⟨none, some 10⟩
      = (c5State, [Event.gotoWp 60]) := by
  constructor
  · have h := (c5_goto_plus50_translation_amended false c5State
      ⟨none, some 60⟩ 60).1 rfl (by decide) (by decide)
    rw [h]
    exact Prod.ext rfl (by decide)
  · exact (c5_goto_plus50_translation_amended false c5State
      ⟨none, some 10⟩ 10).2 rfl (by decide)

/-- C6: when `GotoNext` is issued at the last index of a non-final page,
exactly one page load happens (one persist and one upload event), the
resulting state is the fully loaded next page, and both the upload and the
persist precede every `GotoWaypoint` event in the trace; when the incremented
target lies within the page, the only event is `GotoWaypoint (c+1)` with no
page load. -/
theorem c6_goto_next_page_boundary (wasAuto : Bool) (s : RobotState)
    (d : AutopilotData) (c : ℤ) :
    (d.mission_current = some c →
      c = end_waypoint_number_of_waypoints_in_autopilot s →
      more_waypoints_to_load s = true →
      (goto_next_wp wasAuto s d).1 = (load_next_round_of_waypoints s).1 ∧
      (goto_next_wp wasAuto s d).2.count Event.upload = 1 ∧
      (goto_next_wp wasAuto s d).2.count Event.persist = 1 ∧
      (∀ i : ℕ, ∀ h : i < (goto_next_wp wasAuto s d).2.length,
        ((goto_next_wp wasAuto s d).2.get ⟨i, h⟩).isGoto = true →
        Event.upload ∈ (goto_next_wp wasAuto s d).2.take i ∧
        Event.persist ∈ (goto_next_wp wasAuto s d).2.take i)) ∧
    (d.mission_current = some c →
      c + 1 ≤ end_waypoint_number_of_waypoints_in_autopilot s →
      goto_next_wp wasAuto s d = (s, [Event.gotoWp (c + 1)]) ∧
      Event.upload ∉ (goto_next_wp wasAuto s d).2 ∧
      Event.persist ∉ (goto_next_wp wasAuto s d).2) := by
  constructor
  · intro hmc hc hmore
    have heq : goto_next_wp wasAuto s d = ((load_next_round_of_waypoints s).1,
        (if wasAuto then [Event.hold] else [])
          ++ [Event.persist, Event.upload] ++ [Event.gotoWp 2]
          ++ (if wasAuto then [Event.startRobot] else [])) := by
      unfold goto_next_wp
      rw [hmc]
      dsimp only
      rw [if_pos ⟨by omega, hmore⟩, load_next_spec s hmore]
      rfl
    rw [heq]
    cases wasAuto <;>
      · refine ⟨rfl, ?_, ?_, ?_⟩ <;>
          · dsimp only
            decide
  · intro hmc hle
    have heq : goto_next_wp wasAuto s d = (s, [Event.gotoWp (c + 1)]) := by
      unfold goto_next_wp
      rw [hmc]
      dsimp only
      rw [if_neg (by
        intro hand
        omega)]
      rfl
    rw [heq]
    refine ⟨rfl, by simp, by simp⟩

/-- Witness for C6 at a concrete boundary state (progress at page end 1 of a
2-point page, 5-point mission) and a concrete interior state. -/
theorem c6_goto_next_page_boundary_witness :
    ((goto_next_wp false
        ⟨List.replicate 5 ⟨0, 0⟩, List.replicate 2 ⟨0, 0⟩, 0, 1⟩
        ⟨none, some 1⟩).2.count Event.upload = 1) ∧
    goto_next_wp false
        ⟨List.replicate 5 ⟨0, 0⟩, List.replicate 3 ⟨0, 0⟩, 0, 1⟩
        ⟨none, some 1⟩
      = (⟨List.replicate 5 ⟨0, 0⟩, List.replicate 3 ⟨0, 0⟩, 0, 1⟩,
         [Event.gotoWp 2]) := by
  constructor
  · exact ((c6_goto_next_page_boundary false
      ⟨List.replicate 5 ⟨0, 0⟩, List.replicate 2 ⟨0, 0⟩, 0, 1⟩
      ⟨none, some 1⟩ 1).1 rfl (by decide) (by decide)).2.1
  · exact ((c6_goto_next_page_boundary false
      ⟨List.replicate 5 ⟨0, 0⟩, List.replicate 3 ⟨0, 0⟩, 0, 1⟩
      ⟨none, some 1⟩ 1).2 rfl (by decide)).1

theorem specWaypointLine_eq (render : ℚ → String) (i : ℕ) (w : Waypoint) :
    specWaypointLine render i w
      = build_waypoint_file_lat_lng_line render i (pyRound w.lat 8)
          (pyRound w.lng 8) := by
  unfold specWaypointLine build_waypoint_file_lat_lng_line
  rw [show ("\t0\t3\t16\t0\t0\t0\t0\t" : String)
      = "\t" ++ "0" ++ "\t" ++ "3" ++ "\t" ++ "16" ++ "\t" ++ "0" ++ "\t"
        ++ "0" ++ "\t" ++ "0" ++ "\t" ++ "0" ++ "\t" from rfl,
    show ("\t100.000000\t1" : String)
      = "\t" ++ "100.000000" ++ "\t" ++ "1" from rfl]
  simp only [String.append_assoc]

theorem string_join_cons (a : String) (l : List String) :
    String.join (a :: l) = a ++ String.join l := by
  have haux : ∀ (t : List String) (x : String),
      t.foldl (fun r s => r ++ s) x = x ++ t.foldl (fun r s => r ++ s) "" := by
    intro t
    induction t with
    | nil =>
      intro x
      simp only [List.foldl]
      rw [String.append_empty]
    | cons b t ih =>
      intro x
      simp only [List.foldl]
      rw [ih (x ++ b), ih ("" ++ b), String.empty_append, String.append_assoc]
  simp only [String.join, List.foldl]
  rw [haux l ("" ++ a), String.empty_append]

theorem build_waypoints_loop_eq (render : ℚ → String) (ws : List Waypoint) :
    ∀ k : ℕ, build_waypoints_loop render k ws
      = String.join ((ws.enumFrom k).map
          fun p => specWaypointLine render p.1 p.2 ++ "\n") := by
  induction ws with
  | nil => intro k; rfl
  | cons w t ih =>
    intro k
    rw [build_waypoints_loop, List.enumFrom_cons, List.map_cons,
      string_join_cons, ih (k + 1), specWaypointLine_eq, String.append_assoc]

/-- C7: the generated mission string is exactly the header line
`QGC WPL 110` followed by one line per waypoint of the twelve tab-separated
fields `index 0 3 16 0 0 0 0 lat lng 100.000000 1`, with the index counting
from 0 in list order and the coordinates rounded to 8 decimal places before
rendering. -/
theorem c7_mission_string_format (render : ℚ → String) (ws : List Waypoint) :
    build_waypoints_string_from_mission_waypoints render ws
      = "QGC WPL 110" ++ "\n"
        ++ String.join (ws.enum.map
            fun p => specWaypointLine render p.1 p.2 ++ "\n") := by
  unfold build_waypoints_string_from_mission_waypoints
    build_waypoint_file_first_line
  rw [build_waypoints_loop_eq render ws 0]
  rfl

theorem pymod_small (a b : ℚ) (h0 : 0 ≤ a) (hab : a < b) : pymod a b = a := by
  have hb : 0 < b := lt_of_le_of_lt h0 hab
  have hfloor : ⌊a / b⌋ = 0 := by
    rw [Int.floor_eq_zero_iff]
    constructor
    · exact div_nonneg h0 (le_of_lt hb)
    · rw [div_lt_one hb]
      exact hab
  rw [pymod, hfloor]
  push_cast
  ring

theorem heading_difference_self_small (a : ℚ) (h0 : 0 ≤ a) (h1 : a < 360) :
    heading_difference a a = 0 := by
  unfold heading_difference
  rw [pymod_small a 360 h0 h1]
  simp

theorem heading_difference_10_30 : heading_difference 10 30 = 20 := by
  unfold heading_difference
  rw [pymod_small 10 360 (by norm_num) (by norm_num),
    pymod_small 30 360 (by norm_num) (by norm_num)]
  have habs : |(10 : ℚ) - 30| = 20 := by
    rw [abs_of_nonpos (by norm_num)]
    norm_num
  simp only [habs]
  norm_num

theorem heading_difference_30_10 : heading_difference 30 10 = 20 := by
  unfold heading_difference
  rw [pymod_small 10 360 (by norm_num) (by norm_num),
    pymod_small 30 360 (by norm_num) (by norm_num)]
  have habs : |(30 : ℚ) - 10| = 20 := by
    rw [abs_of_nonneg (by norm_num)]
    norm_num
  simp only [habs]
  norm_num

/-- C8: the wobble measure is 0 for five identical headings and 20 for the
alternating sequence `[10, 30, 10, 30, 10]`; with the 15-degree threshold the
monitor commands a stop/start cycle exactly when more than the 45-second
cooldown has elapsed since the last recorded stop/start, and otherwise only
logs; a zero wobble never triggers anything. -/
theorem c8_wobble_monitor (now t0 : ℚ) :
    max_heading_difference [10, 10, 10, 10, 10] = 0 ∧
    max_heading_difference [10, 30, 10, 30, 10] = 20 ∧
    autopilot_gyration_decision
        (max_heading_difference [10, 10, 10, 10, 10]) now t0
      = GyrationAction.noAction ∧
    autopilot_gyration_decision
        (max_heading_difference [10, 30, 10, 30, 10]) now t0
      = (if now - t0 > GYRATING_CHECK_MIN_TIME_BETWEEN_RESETS_IN_SECONDS
         then GyrationAction.stopStartCycle
         else GyrationAction.logOnly) := by
  have h10 : heading_difference 10 10 = 0 :=
    heading_difference_self_small 10 (by norm_num) (by norm_num)
  have h30 : heading_difference 30 30 = 0 :=
    heading_difference_self_small 30 (by norm_num) (by norm_num)
  have ha : max_heading_difference [10, 10, 10, 10, 10] = 0 := by
    simp only [max_heading_difference, max_heading_difference_go,
      List.foldl, h10]
    norm_num [max_def]
  have hb : max_heading_difference [10, 30, 10, 30, 10] = 20 := by
    simp only [max_heading_difference, max_heading_difference_go,
      List.foldl, h10, h30, heading_difference_10_30,
      heading_difference_30_10]
    norm_num [max_def]
  refine ⟨ha, hb, ?_, ?_⟩
  · rw [ha]
    unfold autopilot_gyration_decision
    rw [if_neg (by
      simp only [GYRATING_CHECK_MAX_ALLOWABLE_WOBBLE_IN_DEGREES]
      norm_num)]
  · rw [hb]
    unfold autopilot_gyration_decision
    rw [if_pos (by
      simp only [GYRATING_CHECK_MAX_ALLOWABLE_WOBBLE_IN_DEGREES]
      norm_num)]

/-- Witness for C3 (amended) at the concrete state with page bounds
`[350, 600]`: the deep branch returns 250 and stores page end 350. -/
theorem c3_load_prior_amended_witness :
    (load_prior_round_of_waypoints c3State).2.2 = WAYPOINT_LOAD_COUNT_SUBSEQUENT ∧
    (load_prior_round_of_waypoints
        c3State).1.last_autopilot_loaded_waypoint_number_end = 350 := by
  have h := (c3_load_prior_amended c3State).2 (by rfl)
  have h2 := h.2.2.2 (by rw [WAYPOINT_LOAD_COUNT_INITIAL,
    WAYPOINT_LOAD_COUNT_SUBSEQUENT]; norm_num [c3State])
  exact ⟨h2.1, by rw [h2.2.2]; rfl⟩

end OxChief
